import Mathlib

/-!
Verification of the procurement pipeline's core computation
(net-demand calculation, supplier-order derivation, data-quality checks),
shallowly embedded from the SQL queries and Python glue in
`src/airflow/dags/procurement_pipeline_dag.py`.

Conventions of the embedding:
* SQL INTEGER columns are modelled as `Int`.
* Each SQL query over in-memory relations becomes a pure function over
  `List`s; inner joins become nested `flatMap` over `filter`, `LEFT JOIN`
  of a grouped subquery followed by `COALESCE(_, 0)` becomes a sum over a
  filtered list (an absent group yields the empty sum `0`).
* The one fallible step, `generate_supplier_orders`, returns an `Option`:
  `none` models the Presto query failing at runtime (which makes the Python
  task raise an `Exception`), `some` models a successful CSV export.
-/

/-- Row of `postgresql.public.products` (fields used by the pipeline). -/
structure Product where
  product_id : Nat
  sku : String
  product_name : String
  is_active : Bool
deriving DecidableEq

/-- Row of `postgresql.public.suppliers` (fields used by the pipeline). -/
structure Supplier where
  supplier_id : Nat
  supplier_code : String
  supplier_name : String
  is_active : Bool
deriving DecidableEq

/-- Row of `postgresql.public.supplier_products`. -/
structure SupplierProduct where
  supplier_id : Nat
  product_id : Nat
  is_primary_supplier : Bool
deriving DecidableEq

/-- Row of `postgresql.public.replenishment_rules` (one per product by data
model; the uniqueness is an invariant of the store, stated as a hypothesis
where a theorem needs it). -/
structure ReplenishmentRule where
  product_id : Nat
  safety_stock : Int
  min_order_quantity : Int
  pack_size : Int
  case_size : Int
  max_order_quantity : Int
  reorder_point : Int
deriving DecidableEq

/-- Row of `hive.default.orders` (fields used by the aggregations). -/
structure OrderLine where
  order_id : String
  pos_store_id : String
  sku : String
  quantity : Int
deriving DecidableEq

/-- Row of `hive.default.stock`. -/
structure StockRecord where
  warehouse_code : String
  sku : String
  available_stock : Int
  reserved_stock : Int
deriving DecidableEq

/-- `SELECT sku, SUM(quantity) FROM hive.default.orders GROUP BY sku`,
looked up at one `sku`; a missing group together with the outer
`COALESCE(o.total_quantity, 0)` yields `0`, which coincides with the empty
sum. -/
def aggOrders (orders : List OrderLine) (sku : String) : Int :=
  ((orders.filter (fun o => o.sku = sku)).map (fun o => o.quantity)).sum

/-- `SUM(available_stock)` of `hive.default.stock` grouped by `sku`,
with the `COALESCE(s.total_available, 0)` default. -/
def aggAvailable (stock : List StockRecord) (sku : String) : Int :=
  ((stock.filter (fun s => s.sku = sku)).map (fun s => s.available_stock)).sum

/-- `SUM(reserved_stock)` of `hive.default.stock` grouped by `sku`,
with the `COALESCE(s.total_reserved, 0)` default. -/
def aggReserved (stock : List StockRecord) (sku : String) : Int :=
  ((stock.filter (fun s => s.sku = sku)).map (fun s => s.reserved_stock)).sum

/-- Row of the derived table `hive.default.net_demand` (the `SELECT` list of
the `CREATE TABLE ... AS` statement in task `calculate_net_demand`). -/
structure NetDemandRow where
  sku : String
  product_name : String
  aggregated_orders : Int
  available_stock : Int
  reserved_stock : Int
  safety_stock : Int
  net_demand : Int
  case_size : Int
  min_order_quantity : Int
deriving DecidableEq

/-- The `SELECT` list of the net-demand query evaluated for one joined pair
of a product `p` and a rule `r`; `GREATEST(..., 0)` is `max _ 0`. -/
def netDemandRow (orders : List OrderLine) (stock : List StockRecord)
    (p : Product) (r : ReplenishmentRule) : NetDemandRow :=
  { sku := p.sku
    product_name := p.product_name
    aggregated_orders := aggOrders orders p.sku
    available_stock := aggAvailable stock p.sku
    reserved_stock := aggReserved stock p.sku
    safety_stock := r.safety_stock
    net_demand :=
      max (aggOrders orders p.sku + r.safety_stock
            - (aggAvailable stock p.sku - aggReserved stock p.sku)) 0
    case_size := r.case_size
    min_order_quantity := r.min_order_quantity }

/-- Task 5's net-demand query:
`products JOIN replenishment_rules ON product_id`, `LEFT JOIN` of the two
grouped subqueries (folded into `aggOrders`/`aggAvailable`/`aggReserved`),
restricted by `WHERE p.is_active = TRUE`.  One output row per matching
(product, rule) pair. -/
def calculate_net_demand (products : List Product)
    (rules : List ReplenishmentRule) (orders : List OrderLine)
    (stock : List StockRecord) : List NetDemandRow :=
  (products.filter (fun p => p.is_active)).flatMap (fun p =>
    (rules.filter (fun r => r.product_id = p.product_id)).map
      (netDemandRow orders stock p))

/-- `CEIL(a * 1.0 / b)` for integer `a`, `b` with `b ≠ 0`: the exact
mathematical ceiling of `a / b`, computed with Euclidean division
(`Int` division `/` rounds toward negative infinity for a positive
divisor, so `(a + b - 1) / b` is the ceiling).  The `b = 0` case never
reaches this value in the model: the enclosing query is modelled as
failing (see `generate_supplier_orders`), because in Presto
`CEIL(a * 1.0 / 0) * 0` is `NaN` and `CAST(NaN AS INTEGER)` is a runtime
error. -/
def sqlCeilDiv (a b : Int) : Int :=
  if 0 < b then (a + b - 1) / b
  else if b < 0 then (-a + -b - 1) / -b
  else 0

/-- `CAST(CEIL(nd.net_demand * 1.0 / nd.case_size) * nd.case_size AS INTEGER)`
from the supplier-order query. -/
def order_quantity (nd cs : Int) : Int :=
  sqlCeilDiv nd cs * cs

/-- Output row of task 6's supplier-order query (one CSV line). -/
structure SupplierOrderLine where
  supplier_code : String
  supplier_name : String
  sku : String
  product_name : String
  net_demand : Int
  case_size : Int
  order_quantity : Int
deriving DecidableEq

/-- The `SELECT` list of the supplier-order query for one joined
(net-demand row, supplier) pair. -/
def mkOrderLine (s : Supplier) (row : NetDemandRow) : SupplierOrderLine :=
  { supplier_code := s.supplier_code
    supplier_name := s.supplier_name
    sku := row.sku
    product_name := row.product_name
    net_demand := row.net_demand
    case_size := row.case_size
    order_quantity := order_quantity row.net_demand row.case_size }

/-- The joined rows contributed by a single net-demand row:
`JOIN products p ON nd.sku = p.sku`,
`JOIN supplier_products sp ON p.product_id = sp.product_id`
with `sp.is_primary_supplier = TRUE`,
`JOIN suppliers s ON sp.supplier_id = s.supplier_id`.
Note that no filter on `p.is_active` or `s.is_active` appears in the query. -/
def rowLines (products : List Product) (links : List SupplierProduct)
    (suppliers : List Supplier) (row : NetDemandRow) : List SupplierOrderLine :=
  (products.filter (fun p => p.sku = row.sku)).flatMap (fun p =>
    (links.filter (fun sp =>
        decide (sp.product_id = p.product_id) && sp.is_primary_supplier)).flatMap (fun sp =>
      (suppliers.filter (fun s => s.supplier_id = sp.supplier_id)).map
        (fun s => mkOrderLine s row)))

/-- All joined rows of the supplier-order query, before `ORDER BY`:
the `WHERE nd.net_demand > 0` restriction followed by the three joins. -/
def supplierOrderRows (nd : List NetDemandRow) (products : List Product)
    (links : List SupplierProduct) (suppliers : List Supplier) :
    List SupplierOrderLine :=
  (nd.filter (fun row => 0 < row.net_demand)).flatMap
    (rowLines products links suppliers)

/-- The `ORDER BY s.supplier_code, nd.sku` key: lexicographic on the
character lists of the two strings (Lean's `String` order is exactly the
order of the underlying `List Char`). -/
def lineLE (x y : SupplierOrderLine) : Prop :=
  x.supplier_code.data < y.supplier_code.data ∨
    (x.supplier_code.data = y.supplier_code.data ∧ x.sku.data ≤ y.sku.data)

instance : DecidableRel lineLE := fun x y => by unfold lineLE; infer_instance

/-- Task 6, `generate_supplier_orders`: run the supplier-order query and
export its rows in `ORDER BY (supplier_code, sku)` order.  If any surviving
joined row has `case_size = 0`, the projected expression
`CAST(CEIL(net_demand * 1.0 / 0) * 0 AS INTEGER)` is `CAST(NaN AS INTEGER)`,
the query fails, `result.returncode ≠ 0`, and the Python task raises an
`Exception`; this crash of the task is modelled as `none`. -/
def generate_supplier_orders (nd : List NetDemandRow)
    (products : List Product) (links : List SupplierProduct)
    (suppliers : List Supplier) : Option (List SupplierOrderLine) :=
  let rows := supplierOrderRows nd products links suppliers
  if rows.any (fun l => l.case_size = 0) then none
  else some (rows.insertionSort lineLE)

/-- `TRUE` iff the product has at least one `supplier_products` link row,
primary or not (`LEFT JOIN supplier_products sp ON p.product_id =
sp.product_id ... WHERE sp.supplier_id IS NULL` keeps exactly the products
with no link row at all). -/
def hasLink (links : List SupplierProduct) (p : Product) : Bool :=
  links.any (fun sp => sp.product_id = p.product_id)

/-- Task 4's first check: `COUNT(DISTINCT p.sku)` over active products with
no `supplier_products` row of any kind. -/
def unmappedCount (products : List Product) (links : List SupplierProduct) : Nat :=
  (((products.filter (fun p => p.is_active && !(hasLink links p))).map
      (fun p => p.sku)).dedup).length

/-- Distinct SKUs appearing in the day's order lines (the `GROUP BY sku`
groups). -/
def orderSkus (orders : List OrderLine) : List String :=
  (orders.map (fun o => o.sku)).dedup

/-- Result rows of task 4's spike query — one per distinct SKU with
`SUM(quantity) > 1000` (`GROUP BY sku HAVING SUM(quantity) > 1000`). -/
def spikeSkus (orders : List OrderLine) : List String :=
  (orderSkus orders).filter (fun x => 1000 < aggOrders orders x)

def warningMsg : String := "WARNING: Products without supplier mappings detected"

def infoMsg : String := "INFO: Abnormal demand spike detected for some SKUs"

/-- Task 4, `validate_data_quality`, returning the `exceptions` list.
The warning is appended when the literal `'"0"'` does not occur in the
query's one-row stdout, i.e. exactly when the unmapped count is nonzero.
The info finding is appended when `len(result.stdout.strip().split('\n'))
> 1`; the spike query prints one CSV line per spiking SKU and an empty
stdout still splits into one (empty) element, so the condition holds
exactly when at least TWO distinct SKUs exceed the threshold. -/
def validate_data_quality (products : List Product)
    (links : List SupplierProduct) (orders : List OrderLine) : List String :=
  (if unmappedCount products links ≠ 0 then [warningMsg] else []) ++
    (if 2 ≤ (spikeSkus orders).length then [infoMsg] else [])

/-- The inputs consumed by one run of the pipeline's core tasks. -/
structure PipelineInput where
  products : List Product
  rules : List ReplenishmentRule
  orders : List OrderLine
  stock : List StockRecord
  links : List SupplierProduct
  suppliers : List Supplier
deriving DecidableEq

/-- The outputs of one run: the findings of task 4, the `net_demand` table
of task 5, and the ordered supplier-order export of task 6. -/
structure PipelineOutput where
  findings : List String
  netDemand : List NetDemandRow
  supplierOrders : Option (List SupplierOrderLine)
deriving DecidableEq

/-- Tasks 4–6 composed in DAG order on a fixed day's inputs. -/
def runPipeline (i : PipelineInput) : PipelineOutput :=
  { findings := validate_data_quality i.products i.links i.orders
    netDemand := calculate_net_demand i.products i.rules i.orders i.stock
    supplierOrders :=
      generate_supplier_orders
        (calculate_net_demand i.products i.rules i.orders i.stock)
        i.products i.links i.suppliers }

/-- Total number of joined (product, primary link, supplier) combinations
the supplier-order query attaches to a given SKU: the fan-out of the three
joins. -/
def linkFanout (products : List Product) (links : List SupplierProduct)
    (suppliers : List Supplier) (x : String) : Nat :=
  ((products.filter (fun p => p.sku = x)).map (fun p =>
    ((links.filter (fun sp =>
        decide (sp.product_id = p.product_id) && sp.is_primary_supplier)).map
      (fun sp => (suppliers.filter (fun s => s.supplier_id = sp.supplier_id)).length)).sum)).sum

/-- A rule updated in its `min_order_quantity` and `max_order_quantity`
fields only, used to state that the derived order quantity ignores both. -/
def setMinMax (m M : Int) (r : ReplenishmentRule) : ReplenishmentRule :=
  { r with min_order_quantity := m, max_order_quantity := M }

/-- Modelled from the spec: the count of active products with zero
PRIMARY-supplier links, the quantity claim C7 says the unmapped-SKU check
counts.  The code's check (`unmappedCount`) instead counts products with no
link row of any kind; this definition exists to state that claim and refute
it. -/
def primaryUnmappedCount (products : List Product)
    (links : List SupplierProduct) : Nat :=
  (((products.filter (fun p =>
      p.is_active &&
        !(links.any (fun sp =>
            decide (sp.product_id = p.product_id) && sp.is_primary_supplier)))).map
      (fun p => p.sku)).dedup).length

/-! Concrete master data and daily inputs used by witnesses and
counterexamples.  `wP`/`wR` follow Scenario A of the spec
(`SKU00001`, `case_size = 12`, `safety_stock = 20`). -/

def wP : Product := { product_id := 1, sku := "SKU00001", product_name := "Widget", is_active := true }

def wR : ReplenishmentRule :=
  { product_id := 1, safety_stock := 20, min_order_quantity := 12, pack_size := 1
    case_size := 12, max_order_quantity := 500, reorder_point := 50 }

def wOrdersA : List OrderLine :=
  [{ order_id := "ORD1", pos_store_id := "POS1", sku := "SKU00001", quantity := 100 }]

def wStockA : List StockRecord :=
  [{ warehouse_code := "WH1", sku := "SKU00001", available_stock := 60, reserved_stock := 10 }]

def wSup1 : Supplier := { supplier_id := 1, supplier_code := "SUP001", supplier_name := "Alpha Foods", is_active := true }

def wSup2 : Supplier := { supplier_id := 2, supplier_code := "SUP002", supplier_name := "Beta Foods", is_active := true }

def wSupInactive : Supplier := { supplier_id := 3, supplier_code := "SUP003", supplier_name := "Gamma Foods", is_active := false }

def wLink1 : SupplierProduct := { supplier_id := 1, product_id := 1, is_primary_supplier := true }

def wLink2 : SupplierProduct := { supplier_id := 2, product_id := 1, is_primary_supplier := true }

def wLinkInactive : SupplierProduct := { supplier_id := 3, product_id := 1, is_primary_supplier := true }

def wLinkNonPrimary : SupplierProduct := { supplier_id := 1, product_id := 1, is_primary_supplier := false }

/-- A rule equal to `wR` except for `case_size = 0`, for claim C5. -/
def wRZeroCase : ReplenishmentRule :=
  { product_id := 1, safety_stock := 20, min_order_quantity := 12, pack_size := 1
    case_size := 0, max_order_quantity := 500, reorder_point := 50 }

/-- A single order line whose quantity alone exceeds the 1000-unit spike
threshold, for claim C8. -/
def wSpikeOrders : List OrderLine :=
  [{ order_id := "ORD9", pos_store_id := "POS1", sku := "SKU00001", quantity := 1500 }]

/-- A complete happy-path input for the determinism witness. -/
def wInput : PipelineInput :=
  { products := [wP], rules := [wR], orders := wOrdersA, stock := wStockA
    links := [wLink1], suppliers := [wSup1] }

example : calculate_net_demand [wP] [wR] wOrdersA wStockA =
    [{ sku := "SKU00001", product_name := "Widget", aggregated_orders := 100
       available_stock := 60, reserved_stock := 10, safety_stock := 20
       net_demand := 70, case_size := 12, min_order_quantity := 12 }] := by decide

example : generate_supplier_orders (calculate_net_demand [wP] [wR] wOrdersA wStockA)
    [wP] [wLink1] [wSup1] =
    some [{ supplier_code := "SUP001", supplier_name := "Alpha Foods", sku := "SKU00001"
            product_name := "Widget", net_demand := 70, case_size := 12
            order_quantity := 72 }] := by decide

instance : IsTotal SupplierOrderLine lineLE := by
  constructor
  intro x y
  rcases lt_trichotomy x.supplier_code.data y.supplier_code.data with h | h | h
  · exact Or.inl (Or.inl h)
  · rcases le_total x.sku.data y.sku.data with h2 | h2
    · exact Or.inl (Or.inr ⟨h, h2⟩)
    · exact Or.inr (Or.inr ⟨h.symm, h2⟩)
  · exact Or.inr (Or.inl h)

instance : IsTrans SupplierOrderLine lineLE := by
  constructor
  intro a b c hab hbc
  rcases hab with h1 | ⟨e1, s1⟩
  · rcases hbc with h2 | ⟨e2, s2⟩
    · exact Or.inl (lt_trans h1 h2)
    · exact Or.inl (e2 ▸ h1)
  · rcases hbc with h2 | ⟨e2, s2⟩
    · refine Or.inl ?_
      rw [e1]
      exact h2
    · exact Or.inr ⟨e1.trans e2, le_trans s1 s2⟩

@[simp] theorem netDemandRow_sku (o : List OrderLine) (s : List StockRecord)
    (p : Product) (r : ReplenishmentRule) : (netDemandRow o s p r).sku = p.sku := rfl

@[simp] theorem netDemandRow_case_size (o : List OrderLine) (s : List StockRecord)
    (p : Product) (r : ReplenishmentRule) :
    (netDemandRow o s p r).case_size = r.case_size := rfl

@[simp] theorem netDemandRow_net_demand (o : List OrderLine) (s : List StockRecord)
    (p : Product) (r : ReplenishmentRule) :
    (netDemandRow o s p r).net_demand =
      max (aggOrders o p.sku + r.safety_stock
            - (aggAvailable s p.sku - aggReserved s p.sku)) 0 := rfl

@[simp] theorem mkOrderLine_sku (s : Supplier) (row : NetDemandRow) :
    (mkOrderLine s row).sku = row.sku := rfl

@[simp] theorem mkOrderLine_supplier_code (s : Supplier) (row : NetDemandRow) :
    (mkOrderLine s row).supplier_code = s.supplier_code := rfl

@[simp] theorem mkOrderLine_case_size (s : Supplier) (row : NetDemandRow) :
    (mkOrderLine s row).case_size = row.case_size := rfl

@[simp] theorem mkOrderLine_net_demand (s : Supplier) (row : NetDemandRow) :
    (mkOrderLine s row).net_demand = row.net_demand := rfl

@[simp] theorem mkOrderLine_order_quantity (s : Supplier) (row : NetDemandRow) :
    (mkOrderLine s row).order_quantity = order_quantity row.net_demand row.case_size := rfl

/-- In a list whose elements have pairwise-distinct keys, the sublist of
elements carrying a given member's key is exactly that member. -/
theorem filter_key_eq_singleton {α K : Type} [DecidableEq K] (key : α → K)
    {l : List α} (h : l.Pairwise (fun a b => key a ≠ key b)) {a : α}
    (ha : a ∈ l) : l.filter (fun b => decide (key b = key a)) = [a] := by
  induction l with
  | nil => cases ha
  | cons x xs ih =>
    rcases List.pairwise_cons.mp h with ⟨hx, hxs⟩
    rcases List.mem_cons.mp ha with rfl | hmem
    · rw [List.filter_cons, if_pos (by simp)]
      have hnil : xs.filter (fun b => decide (key b = key a)) = [] :=
        List.filter_eq_nil_iff.mpr (fun b hb => by simpa using (hx b hb).symm)
      rw [hnil]
    · have hne : key x ≠ key a := hx a hmem
      rw [List.filter_cons, if_neg (by simp [hne]), ih hxs hmem]

/-- With pairwise-distinct keys, at most one element carries any given key. -/
theorem countP_key_le_one {α K : Type} [DecidableEq K] (key : α → K)
    {l : List α} (h : l.Pairwise (fun a b => key a ≠ key b)) (k : K) :
    l.countP (fun a => decide (key a = k)) ≤ 1 := by
  induction l with
  | nil => simp
  | cons x xs ih =>
    rcases List.pairwise_cons.mp h with ⟨hx, hxs⟩
    rw [List.countP_cons]
    by_cases hk : key x = k
    · have hz : xs.countP (fun a => decide (key a = k)) = 0 :=
        List.countP_eq_zero.mpr (fun b hb => by simp [hk ▸ (hx b hb).symm])
      simp [hz, hk]
    · simp only [hk, decide_eq_true_eq, if_neg hk]
      simpa using ih hxs

/-- With pairwise-distinct keys, a member's key is carried exactly once. -/
theorem countP_key_eq_one {α K : Type} [DecidableEq K] (key : α → K)
    {l : List α} (h : l.Pairwise (fun a b => key a ≠ key b)) {a : α}
    (ha : a ∈ l) (k : K) (hk : key a = k) :
    l.countP (fun b => decide (key b = k)) = 1 := by
  refine le_antisymm (countP_key_le_one key h k) ?_
  have : 0 < l.countP (fun b => decide (key b = k)) :=
    List.countP_pos_iff.mpr ⟨a, ha, by simp [hk]⟩
  omega

/-- A net-demand row exists exactly for a joined (active product, rule)
pair, and is that pair's `SELECT` list. -/
theorem mem_calculate_net_demand {P : List Product}
    {R : List ReplenishmentRule} {o : List OrderLine} {s : List StockRecord}
    {row : NetDemandRow} :
    row ∈ calculate_net_demand P R o s ↔
      ∃ p ∈ P, ∃ r ∈ R, p.is_active = true ∧ r.product_id = p.product_id ∧
        row = netDemandRow o s p r := by
  unfold calculate_net_demand
  simp only [List.mem_flatMap, List.mem_filter, List.mem_map, decide_eq_true_eq]
  constructor
  · rintro ⟨p, ⟨hp, hact⟩, r, ⟨hr, hpid⟩, hEq⟩
    exact ⟨p, hp, r, hr, hact, hpid, hEq.symm⟩
  · rintro ⟨p, hp, r, hr, hact, hpid, hEq⟩
    exact ⟨p, ⟨hp, hact⟩, r, ⟨hr, hpid⟩, hEq.symm⟩

/-- Per-SKU row count of the net-demand table: one row per matching rule of
each active product carrying that SKU. -/
theorem countP_calculate_net_demand (P : List Product)
    (R : List ReplenishmentRule) (o : List OrderLine) (s : List StockRecord)
    (x : String) :
    (calculate_net_demand P R o s).countP (fun row => decide (row.sku = x))
      = ((P.filter (fun p => p.is_active && decide (p.sku = x))).map
          (fun p => R.countP (fun r => decide (r.product_id = p.product_id)))).sum := by
  induction P with
  | nil => rfl
  | cons p ps ih =>
    unfold calculate_net_demand at ih ⊢
    rw [List.filter_cons, List.filter_cons]
    by_cases hact : p.is_active
    · rw [if_pos (by simp [hact]), List.flatMap_cons, List.countP_append, ih]
      have hinner :
          ((R.filter (fun r => decide (r.product_id = p.product_id))).map
              (netDemandRow o s p)).countP (fun row => decide (row.sku = x))
            = if p.sku = x then R.countP (fun r => decide (r.product_id = p.product_id)) else 0 := by
        rw [List.countP_map]
        by_cases hsku : p.sku = x
        · rw [if_pos hsku]
          have : ((fun row => decide (row.sku = x)) ∘ netDemandRow o s p)
              = fun _ => true := by
            funext r
            simp [hsku]
          rw [this, List.countP_true, List.countP_eq_length_filter]
        · rw [if_neg hsku]
          have : ((fun row => decide (row.sku = x)) ∘ netDemandRow o s p)
              = fun _ => false := by
            funext r
            simp [hsku]
          rw [this, List.countP_false]
          rfl
      by_cases hsku : p.sku = x
      · rw [if_pos (by simp [hact, hsku]), List.map_cons, List.sum_cons, hinner,
          if_pos hsku, Nat.add_comm]
      · rw [if_neg (by simp [hsku]), hinner, if_neg hsku, Nat.zero_add]
    · rw [if_neg (by simp [hact]), if_neg (by simp [hact]), ih]

/-- Every line of the supplier-order join originates from one net-demand
row with positive demand, one matching product, one primary link, and one
matching supplier. -/
theorem mem_rowLines {P : List Product} {L : List SupplierProduct}
    {S : List Supplier} {row : NetDemandRow} {l : SupplierOrderLine} :
    l ∈ rowLines P L S row ↔
      ∃ p ∈ P, p.sku = row.sku ∧ ∃ sp ∈ L, sp.product_id = p.product_id ∧
        sp.is_primary_supplier = true ∧ ∃ s ∈ S, s.supplier_id = sp.supplier_id ∧
          l = mkOrderLine s row := by
  unfold rowLines
  simp only [List.mem_flatMap, List.mem_filter, List.mem_map,
    Bool.and_eq_true, decide_eq_true_eq]
  constructor
  · rintro ⟨p, ⟨hp, hps⟩, sp, ⟨hsp, hpid, hprim⟩, s, ⟨hs, hsid⟩, hEq⟩
    exact ⟨p, hp, hps, sp, hsp, hpid, hprim, s, hs, hsid, hEq.symm⟩
  · rintro ⟨p, hp, hps, sp, hsp, hpid, hprim, s, hs, hsid, hEq⟩
    exact ⟨p, ⟨hp, hps⟩, sp, ⟨hsp, hpid, hprim⟩, s, ⟨hs, hsid⟩, hEq.symm⟩

/-- The number of joined lines a single net-demand row produces is the
join fan-out of its SKU. -/
theorem length_rowLines (P : List Product) (L : List SupplierProduct)
    (S : List Supplier) (row : NetDemandRow) :
    (rowLines P L S row).length = linkFanout P L S row.sku := by
  simp [rowLines, linkFanout, List.length_flatMap, Function.comp_def]

/-- Per-SKU count of the lines contributed by one net-demand row. -/
theorem countP_rowLines (P : List Product) (L : List SupplierProduct)
    (S : List Supplier) (row : NetDemandRow) (x : String) :
    (rowLines P L S row).countP (fun l => decide (l.sku = x))
      = if row.sku = x then linkFanout P L S x else 0 := by
  by_cases h : row.sku = x
  · rw [if_pos h, ← h, ← length_rowLines]
    apply List.countP_eq_length.mpr
    intro l hl
    obtain ⟨p, _, _, sp, _, _, _, s, _, _, rfl⟩ := mem_rowLines.mp hl
    simp
  · rw [if_neg h]
    apply List.countP_eq_zero.mpr
    intro l hl
    obtain ⟨p, _, _, sp, _, _, _, s, _, _, rfl⟩ := mem_rowLines.mp hl
    simp [h]

/-- Per-SKU count of the whole supplier-order join: the number of positive
net-demand rows of that SKU times the join fan-out of the SKU. -/
theorem countP_supplierOrderRows (nd : List NetDemandRow) (P : List Product)
    (L : List SupplierProduct) (S : List Supplier) (x : String) :
    (supplierOrderRows nd P L S).countP (fun l => decide (l.sku = x))
      = nd.countP (fun row => decide (0 < row.net_demand) && decide (row.sku = x))
          * linkFanout P L S x := by
  induction nd with
  | nil => simp [supplierOrderRows]
  | cons row nds ih =>
    unfold supplierOrderRows at ih ⊢
    rw [List.filter_cons, List.countP_cons]
    by_cases hpos : 0 < row.net_demand
    · rw [if_pos (by simpa), List.flatMap_cons, List.countP_append, ih,
        countP_rowLines]
      by_cases hsku : row.sku = x
      · have hc : (decide (0 < row.net_demand) && decide (row.sku = x)) = true := by
          simp [hpos, hsku]
        rw [if_pos hsku, hc, if_pos rfl]
        ring
      · have hc : (decide (0 < row.net_demand) && decide (row.sku = x)) = false := by
          simp [hsku]
        rw [if_neg hsku, hc]
        simp [ih]
    · have hc : (decide (0 < row.net_demand) && decide (row.sku = x)) = false := by
        simp [hpos]
      rw [if_neg (by simpa using hpos), hc, ih]
      simp

/-- Origin of any line of the supplier-order join: a net-demand row with
positive demand whose SKU, case size and net demand the line carries. -/
theorem mem_supplierOrderRows_origin {nd : List NetDemandRow}
    {P : List Product} {L : List SupplierProduct} {S : List Supplier}
    {l : SupplierOrderLine} (hl : l ∈ supplierOrderRows nd P L S) :
    ∃ row ∈ nd, 0 < row.net_demand ∧ l.sku = row.sku ∧
      l.case_size = row.case_size ∧ l.net_demand = row.net_demand := by
  unfold supplierOrderRows at hl
  rw [List.mem_flatMap] at hl
  obtain ⟨row, hrow, hmem⟩ := hl
  rw [List.mem_filter] at hrow
  obtain ⟨p, _, _, sp, _, _, _, s, _, _, rfl⟩ := mem_rowLines.mp hmem
  exact ⟨row, hrow.1, by simpa using hrow.2, rfl, rfl, rfl⟩

/-- Introduction form: a positive net-demand row joined to a matching
product, primary link, and supplier contributes its `SELECT`-list line. -/
theorem mkOrderLine_mem_supplierOrderRows {nd : List NetDemandRow}
    {P : List Product} {L : List SupplierProduct} {S : List Supplier}
    {row : NetDemandRow} {p : Product} {sp : SupplierProduct} {s : Supplier}
    (hrow : row ∈ nd) (hpos : 0 < row.net_demand)
    (hp : p ∈ P) (hps : p.sku = row.sku)
    (hsp : sp ∈ L) (hpid : sp.product_id = p.product_id)
    (hprim : sp.is_primary_supplier = true)
    (hs : s ∈ S) (hsid : s.supplier_id = sp.supplier_id) :
    mkOrderLine s row ∈ supplierOrderRows nd P L S := by
  unfold supplierOrderRows
  rw [List.mem_flatMap]
  refine ⟨row, List.mem_filter.mpr ⟨hrow, by simpa⟩, ?_⟩
  exact mem_rowLines.mpr ⟨p, hp, hps, sp, hsp, hpid, hprim, s, hs, hsid, rfl⟩

/-- When no surviving joined row has `case_size = 0`, the supplier-order
query succeeds and exports the joined rows sorted by
`(supplier_code, sku)`. -/
theorem generate_supplier_orders_eq_some {nd : List NetDemandRow}
    {P : List Product} {L : List SupplierProduct} {S : List Supplier}
    (h : ∀ row ∈ nd, row.case_size ≠ 0) :
    generate_supplier_orders nd P L S
      = some ((supplierOrderRows nd P L S).insertionSort lineLE) := by
  unfold generate_supplier_orders
  have hany : (supplierOrderRows nd P L S).any (fun l => decide (l.case_size = 0)) = false := by
    rw [List.any_eq_false]
    intro l hl
    obtain ⟨row, hrow, _, _, hcs, _⟩ := mem_supplierOrderRows_origin hl
    simp [hcs, h row hrow]
  simp [hany]

/-- Case-rounding never under-delivers: for a positive case size the
rounded quantity is at least the demand. -/
theorem le_order_quantity {nd cs : Int} (hcs : 1 ≤ cs) :
    nd ≤ order_quantity nd cs := by
  have hpos : (0 : Int) < cs := hcs
  unfold order_quantity sqlCeilDiv
  rw [if_pos hpos, mul_comm]
  have h1 := Int.ediv_add_emod (nd + cs - 1) cs
  have h2 := Int.emod_lt_of_pos (nd + cs - 1) hpos
  have h3 := Int.emod_nonneg (nd + cs - 1) (ne_of_gt hpos)
  obtain ⟨t, ht⟩ : ∃ t, cs * ((nd + cs - 1) / cs) = t := ⟨_, rfl⟩
  rw [ht] at h1 ⊢
  omega

/-- The rounded quantity is a whole number of cases. -/
theorem case_size_dvd_order_quantity (nd cs : Int) :
    cs ∣ order_quantity nd cs :=
  dvd_mul_left cs (sqlCeilDiv nd cs)

/-- `sqlCeilDiv` rounds to the NEAREST case above: it is the least number
of cases covering the demand. -/
theorem sqlCeilDiv_min {nd cs q : Int} (hcs : 1 ≤ cs) (h : nd ≤ q * cs) :
    sqlCeilDiv nd cs ≤ q := by
  have hpos : (0 : Int) < cs := hcs
  unfold sqlCeilDiv
  rw [if_pos hpos]
  have h1 : nd + cs - 1 ≤ cs - 1 + q * cs := by linarith
  have h2 := Int.ediv_le_ediv hpos h1
  have hz : (cs - 1) / cs = 0 := Int.ediv_eq_zero_of_lt (by omega) (by omega)
  rwa [Int.add_mul_ediv_right _ _ (ne_of_gt hpos), hz, zero_add] at h2

/-- Changing every rule's `min_order_quantity` / `max_order_quantity` only
re-labels the `min_order_quantity` column of the net-demand table; no other
column reads either field. -/
theorem calculate_net_demand_map_setMinMax (P : List Product)
    (R : List ReplenishmentRule) (o : List OrderLine) (s : List StockRecord)
    (m M : Int) :
    calculate_net_demand P (R.map (setMinMax m M)) o s
      = (calculate_net_demand P R o s).map
          (fun row => { row with min_order_quantity := m }) := by
  unfold calculate_net_demand
  rw [List.map_flatMap]
  congr 1
  funext p
  rw [List.filter_map]
  have hpred : (fun r => decide (r.product_id = p.product_id)) ∘ setMinMax m M
      = fun r => decide (r.product_id = p.product_id) := rfl
  rw [hpred, List.map_map, List.map_map]
  congr 1

/-- The supplier-order join reads only `sku`, `net_demand`, `case_size` and
`product_name` of a net-demand row, so a `min_order_quantity` relabel is
invisible to it. -/
theorem supplierOrderRows_map_min (nd : List NetDemandRow)
    (P : List Product) (L : List SupplierProduct) (S : List Supplier)
    (m : Int) :
    supplierOrderRows (nd.map (fun row => { row with min_order_quantity := m })) P L S
      = supplierOrderRows nd P L S := by
  unfold supplierOrderRows
  rw [List.filter_map]
  have hpred : (fun row => decide (0 < row.net_demand))
        ∘ (fun row : NetDemandRow => { row with min_order_quantity := m })
      = fun row : NetDemandRow => decide (0 < row.net_demand) := rfl
  rw [hpred, List.flatMap_map]
  congr 1

/-- The exported supplier orders therefore ignore both bounds entirely. -/
theorem generate_supplier_orders_map_min (nd : List NetDemandRow)
    (P : List Product) (L : List SupplierProduct) (S : List Supplier)
    (m : Int) :
    generate_supplier_orders
        (nd.map (fun row => { row with min_order_quantity := m })) P L S
      = generate_supplier_orders nd P L S := by
  unfold generate_supplier_orders
  rw [supplierOrderRows_map_min]

/-- C1: for every active product with a replenishment rule the net-demand
query emits that pair's row, whose `net_demand` equals
`max(aggregated_orders + safety_stock - (total_available - total_reserved), 0)`
with zero defaults for a SKU absent from orders or stock; consequently no
row of the result has negative `net_demand`, and an active ruled product
with no order lines and no stock records that day gets
`net_demand = safety_stock`. -/
theorem C1_net_demand_formula
    (products : List Product) (rules : List ReplenishmentRule)
    (orders : List OrderLine) (stock : List StockRecord)
    (p : Product) (r : ReplenishmentRule)
    (hp : p ∈ products) (hact : p.is_active = true)
    (hr : r ∈ rules) (hpr : r.product_id = p.product_id) :
    netDemandRow orders stock p r ∈ calculate_net_demand products rules orders stock ∧
    (netDemandRow orders stock p r).net_demand
      = max (aggOrders orders p.sku + r.safety_stock
              - (aggAvailable stock p.sku - aggReserved stock p.sku)) 0 ∧
    (∀ row ∈ calculate_net_demand products rules orders stock, 0 ≤ row.net_demand) ∧
    (orders.filter (fun o : OrderLine => o.sku = p.sku) = [] →
      stock.filter (fun st : StockRecord => st.sku = p.sku) = [] →
      0 ≤ r.safety_stock →
      (netDemandRow orders stock p r).net_demand = r.safety_stock) := by
  refine ⟨mem_calculate_net_demand.mpr ⟨p, hp, r, hr, hact, hpr, rfl⟩, rfl, ?_, ?_⟩
  · intro row hrow
    obtain ⟨q, _, t, _, _, _, rfl⟩ := mem_calculate_net_demand.mp hrow
    exact le_max_right _ _
  · intro ho hs hsafe
    rw [netDemandRow_net_demand]
    unfold aggOrders aggAvailable aggReserved
    rw [ho, hs]
    simpa using max_eq_left hsafe

/-- C1 witness: the lone active product `wP` with rule `wR`, no orders and
no stock: its row is emitted with `net_demand = safety_stock = 20`. -/
theorem C1_witness :
    netDemandRow [] [] wP wR ∈ calculate_net_demand [wP] [wR] [] [] ∧
    (netDemandRow [] [] wP wR).net_demand
      = max (aggOrders [] wP.sku + wR.safety_stock
              - (aggAvailable [] wP.sku - aggReserved [] wP.sku)) 0 ∧
    (∀ row ∈ calculate_net_demand [wP] [wR] [] [], 0 ≤ row.net_demand) ∧
    (List.filter (fun o : OrderLine => o.sku = wP.sku) [] = [] →
      List.filter (fun st : StockRecord => st.sku = wP.sku) [] = [] →
      0 ≤ wR.safety_stock →
      (netDemandRow [] [] wP wR).net_demand = wR.safety_stock) :=
  C1_net_demand_formula [wP] [wR] [] [] wP wR (by decide) (by decide) (by decide)
    (by decide)

/-- C2: for `case_size ≥ 1` the derived `order_quantity` is exactly the
case-rounded demand `ceil(net_demand / case_size) * case_size`: a multiple
of the case size, at least the demand, with the least covering number of
cases; the projected line reads nothing but `net_demand` and `case_size`,
and replacing every rule's `min_order_quantity` / `max_order_quantity`
leaves the exported supplier orders unchanged (no clamping anywhere). -/
theorem C2_case_rounding (ndq cs : Int) (hcs : 1 ≤ cs) :
    order_quantity ndq cs = sqlCeilDiv ndq cs * cs ∧
    cs ∣ order_quantity ndq cs ∧
    ndq ≤ order_quantity ndq cs ∧
    (∀ q : Int, ndq ≤ q * cs → sqlCeilDiv ndq cs ≤ q) ∧
    (∀ (s : Supplier) (row : NetDemandRow),
      (mkOrderLine s row).order_quantity = order_quantity row.net_demand row.case_size) ∧
    (∀ (products : List Product) (rules : List ReplenishmentRule)
        (orders : List OrderLine) (stock : List StockRecord)
        (links : List SupplierProduct) (suppliers : List Supplier) (m M : Int),
      generate_supplier_orders
          (calculate_net_demand products (rules.map (setMinMax m M)) orders stock)
          products links suppliers
        = generate_supplier_orders
            (calculate_net_demand products rules orders stock) products links suppliers) := by
  refine ⟨rfl, case_size_dvd_order_quantity ndq cs, le_order_quantity hcs,
    fun q hq => sqlCeilDiv_min hcs hq, fun s row => rfl, ?_⟩
  intro P R o st L S m M
  rw [calculate_net_demand_map_setMinMax, generate_supplier_orders_map_min]

/-- C2 witness at Scenario A's numbers: demand 70, case size 12, rounded
order 72. -/
theorem C2_witness :
    order_quantity 70 12 = sqlCeilDiv 70 12 * 12 ∧
    (12 : Int) ∣ order_quantity 70 12 ∧
    (70 : Int) ≤ order_quantity 70 12 ∧
    (∀ q : Int, 70 ≤ q * 12 → sqlCeilDiv 70 12 ≤ q) ∧
    (∀ (s : Supplier) (row : NetDemandRow),
      (mkOrderLine s row).order_quantity = order_quantity row.net_demand row.case_size) ∧
    (∀ (products : List Product) (rules : List ReplenishmentRule)
        (orders : List OrderLine) (stock : List StockRecord)
        (links : List SupplierProduct) (suppliers : List Supplier) (m M : Int),
      generate_supplier_orders
          (calculate_net_demand products (rules.map (setMinMax m M)) orders stock)
          products links suppliers
        = generate_supplier_orders
            (calculate_net_demand products rules orders stock) products links suppliers) :=
  C2_case_rounding 70 12 (by decide)

/-- C9: the composed pipeline is a pure function of its six input
collections — equal inputs give equal findings, equal net-demand tables,
and byte-identical (value- and order-identical) supplier-order exports. -/
theorem C9_deterministic (i j : PipelineInput) (h : i = j) :
    runPipeline i = runPipeline j ∧
    (runPipeline i).netDemand = (runPipeline j).netDemand ∧
    (runPipeline i).supplierOrders = (runPipeline j).supplierOrders := by
  subst h
  exact ⟨rfl, rfl, rfl⟩

/-- C9 witness: two runs on the Scenario A input coincide. -/
theorem C9_witness :
    runPipeline wInput = runPipeline wInput ∧
    (runPipeline wInput).netDemand = (runPipeline wInput).netDemand ∧
    (runPipeline wInput).supplierOrders = (runPipeline wInput).supplierOrders :=
  C9_deterministic wInput wInput rfl

/-- C4: under the data-model invariants (unique SKUs among products, at
most one rule per product), the net-demand table holds exactly one row per
active product possessing a rule; a product without a rule contributes no
row whatever its orders or stock, an inactive product contributes no row,
and every row originates from an active ruled product. -/
theorem C4_one_row_per_ruled_active_product
    (products : List Product) (rules : List ReplenishmentRule)
    (orders : List OrderLine) (stock : List StockRecord)
    (hsku : products.Pairwise (fun a b => a.sku ≠ b.sku))
    (hrules : rules.Pairwise (fun a b => a.product_id ≠ b.product_id)) :
    (∀ p ∈ products, p.is_active = true →
      (∃ r ∈ rules, r.product_id = p.product_id) →
      (calculate_net_demand products rules orders stock).countP
        (fun row => decide (row.sku = p.sku)) = 1) ∧
    (∀ p ∈ products, (∀ r ∈ rules, r.product_id ≠ p.product_id) →
      (calculate_net_demand products rules orders stock).countP
        (fun row => decide (row.sku = p.sku)) = 0) ∧
    (∀ p ∈ products, p.is_active = false →
      (calculate_net_demand products rules orders stock).countP
        (fun row => decide (row.sku = p.sku)) = 0) ∧
    (∀ row ∈ calculate_net_demand products rules orders stock,
      ∃ p ∈ products, ∃ r ∈ rules, p.is_active = true ∧
        r.product_id = p.product_id ∧ row = netDemandRow orders stock p r) := by
  have hfilter : ∀ p ∈ products,
      products.filter (fun q => q.is_active && decide (q.sku = p.sku))
        = (products.filter (fun b => decide (b.sku = p.sku))).filter
            (fun q => q.is_active) := by
    intro p _
    rw [List.filter_filter]
  have hsingle : ∀ p ∈ products,
      products.filter (fun b => decide (b.sku = p.sku)) = [p] := by
    intro p hp
    exact filter_key_eq_singleton (fun q => q.sku) hsku hp
  refine ⟨?_, ?_, ?_, ?_⟩
  · rintro p hp hact ⟨r, hr, hpr⟩
    rw [countP_calculate_net_demand, hfilter p hp, hsingle p hp]
    simp only [List.filter_cons, hact, if_pos, List.filter_nil, List.map_cons,
      List.map_nil, List.sum_cons, List.sum_nil, Nat.add_zero]
    exact countP_key_eq_one (fun r' => r'.product_id) hrules hr p.product_id hpr
  · intro p hp hno
    rw [countP_calculate_net_demand, hfilter p hp, hsingle p hp]
    by_cases hact : p.is_active
    · simp only [List.filter_cons, hact, if_pos, List.filter_nil, List.map_cons,
        List.map_nil, List.sum_cons, List.sum_nil, Nat.add_zero]
      exact List.countP_eq_zero.mpr (fun r hr => by simpa using hno r hr)
    · simp [hact]
  · intro p hp hinact
    rw [countP_calculate_net_demand, hfilter p hp, hsingle p hp]
    simp [hinact]
  · intro row hrow
    exact mem_calculate_net_demand.mp hrow

/-- C4 witness on Scenario A data: the single active ruled product gets
exactly one row, and the vacuous exclusion clauses hold. -/
theorem C4_witness :
    (∀ p ∈ [wP], p.is_active = true →
      (∃ r ∈ [wR], r.product_id = p.product_id) →
      (calculate_net_demand [wP] [wR] wOrdersA wStockA).countP
        (fun row => decide (row.sku = p.sku)) = 1) ∧
    (∀ p ∈ [wP], (∀ r ∈ [wR], r.product_id ≠ p.product_id) →
      (calculate_net_demand [wP] [wR] wOrdersA wStockA).countP
        (fun row => decide (row.sku = p.sku)) = 0) ∧
    (∀ p ∈ [wP], p.is_active = false →
      (calculate_net_demand [wP] [wR] wOrdersA wStockA).countP
        (fun row => decide (row.sku = p.sku)) = 0) ∧
    (∀ row ∈ calculate_net_demand [wP] [wR] wOrdersA wStockA,
      ∃ p ∈ [wP], ∃ r ∈ [wR], p.is_active = true ∧
        r.product_id = p.product_id ∧ row = netDemandRow wOrdersA wStockA p r) :=
  C4_one_row_per_ruled_active_product [wP] [wR] wOrdersA wStockA
    (by simp) (by simp)

/-- C6: with well-formed master data (`case_size ≠ 0`, unique product SKUs,
at most one rule per product), the supplier-order export succeeds, is
sorted ascending by `(supplier_code, sku)`, contains lines only for SKUs of
positive-net-demand rows, contains exactly one line for each such SKU
whenever its product resolves to exactly one primary link and that link to
exactly one supplier, and is the empty sequence — a valid, non-error
outcome — when no SKU has positive net demand. -/
theorem C6_output_shape
    (products : List Product) (rules : List ReplenishmentRule)
    (orders : List OrderLine) (stock : List StockRecord)
    (links : List SupplierProduct) (suppliers : List Supplier)
    (hsku : products.Pairwise (fun a b => a.sku ≠ b.sku))
    (hrules : rules.Pairwise (fun a b => a.product_id ≠ b.product_id))
    (hcs : ∀ r ∈ rules, r.case_size ≠ 0) :
    ∃ out, generate_supplier_orders (calculate_net_demand products rules orders stock)
        products links suppliers = some out ∧
      List.Sorted lineLE out ∧
      (∀ l ∈ out, ∃ row ∈ calculate_net_demand products rules orders stock,
        0 < row.net_demand ∧ l.sku = row.sku) ∧
      (∀ row ∈ calculate_net_demand products rules orders stock, 0 < row.net_demand →
        (∀ p ∈ products, p.sku = row.sku →
          (links.filter (fun sp =>
            decide (sp.product_id = p.product_id) && sp.is_primary_supplier)).length = 1) →
        (∀ sp ∈ links,
          (suppliers.filter (fun s => s.supplier_id = sp.supplier_id)).length = 1) →
        out.countP (fun l => decide (l.sku = row.sku)) = 1) ∧
      ((∀ row ∈ calculate_net_demand products rules orders stock, ¬ 0 < row.net_demand) →
        out = []) := by
  have hcs' : ∀ row ∈ calculate_net_demand products rules orders stock,
      row.case_size ≠ 0 := by
    intro row hrow
    obtain ⟨p, _, r, hr, _, _, rfl⟩ := mem_calculate_net_demand.mp hrow
    simpa using hcs r hr
  have hsingle : ∀ p ∈ products,
      products.filter (fun b => decide (b.sku = p.sku)) = [p] := by
    intro p hp
    exact filter_key_eq_singleton (fun q => q.sku) hsku hp
  refine ⟨(supplierOrderRows (calculate_net_demand products rules orders stock)
      products links suppliers).insertionSort lineLE,
    generate_supplier_orders_eq_some hcs',
    List.sorted_insertionSort lineLE _, ?_, ?_, ?_⟩
  · intro l hl
    rw [(List.perm_insertionSort lineLE _).mem_iff] at hl
    obtain ⟨row, hrow, hpos, hsku', _⟩ := mem_supplierOrderRows_origin hl
    exact ⟨row, hrow, hpos, hsku'⟩
  · intro row hrow hpos hL hS
    rw [List.Perm.countP_eq _ (List.perm_insertionSort lineLE _),
      countP_supplierOrderRows]
    obtain ⟨p0, hp0, r0, hr0, hact0, hpr0, rfl⟩ := mem_calculate_net_demand.mp hrow
    simp only [netDemandRow_sku] at hL ⊢
    have factor1 : (calculate_net_demand products rules orders stock).countP
        (fun row' => decide (0 < row'.net_demand) && decide (row'.sku = p0.sku)) = 1 := by
      apply le_antisymm
      · calc (calculate_net_demand products rules orders stock).countP
              (fun row' => decide (0 < row'.net_demand) && decide (row'.sku = p0.sku))
            ≤ (calculate_net_demand products rules orders stock).countP
              (fun row' => decide (row'.sku = p0.sku)) := by
              apply List.countP_mono_left
              intro a _ h
              rw [Bool.and_eq_true] at h
              exact h.2
          _ ≤ 1 := by
              have hff : products.filter (fun q => q.is_active && decide (q.sku = p0.sku))
                  = (products.filter (fun b => decide (b.sku = p0.sku))).filter
                      (fun q => q.is_active) := by
                rw [List.filter_filter]
              rw [countP_calculate_net_demand, hff, hsingle p0 hp0]
              simp only [List.filter_cons, hact0, if_pos, List.filter_nil,
                List.map_cons, List.map_nil, List.sum_cons, List.sum_nil,
                Nat.add_zero]
              exact countP_key_le_one (fun r' : ReplenishmentRule => r'.product_id) hrules p0.product_id
      · apply Nat.succ_le_of_lt
        apply List.countP_pos_iff.mpr
        exact ⟨netDemandRow orders stock p0 r0, hrow, by simpa using hpos⟩
    have factor2 : linkFanout products links suppliers p0.sku = 1 := by
      unfold linkFanout
      rw [hsingle p0 hp0]
      obtain ⟨sp0, hsp0⟩ := List.length_eq_one.mp (hL p0 hp0 rfl)
      have hsp0mem : sp0 ∈ links := by
        have : sp0 ∈ links.filter (fun sp =>
            decide (sp.product_id = p0.product_id) && sp.is_primary_supplier) := by
          rw [hsp0]
          exact List.mem_singleton.mpr rfl
        exact List.mem_of_mem_filter this
      rw [List.map_cons, List.map_nil, List.sum_cons, List.sum_nil, hsp0,
        List.map_cons, List.map_nil, List.sum_cons, List.sum_nil]
      rw [hS sp0 hsp0mem]
      rfl
    rw [factor1, factor2]
  · intro hno
    have h0 : (calculate_net_demand products rules orders stock).filter
        (fun row => decide (0 < row.net_demand)) = [] :=
      List.filter_eq_nil_iff.mpr (fun row hrow => by simpa using hno row hrow)
    show (supplierOrderRows (calculate_net_demand products rules orders stock)
        products links suppliers).insertionSort lineLE = []
    unfold supplierOrderRows
    rw [h0]
    rfl

/-- C6 witness on Scenario A data: the one-product universe exports exactly
the single sorted line for `SKU00001`. -/
theorem C6_witness :
    ∃ out, generate_supplier_orders (calculate_net_demand [wP] [wR] wOrdersA wStockA)
        [wP] [wLink1] [wSup1] = some out ∧
      List.Sorted lineLE out ∧
      (∀ l ∈ out, ∃ row ∈ calculate_net_demand [wP] [wR] wOrdersA wStockA,
        0 < row.net_demand ∧ l.sku = row.sku) ∧
      (∀ row ∈ calculate_net_demand [wP] [wR] wOrdersA wStockA, 0 < row.net_demand →
        (∀ p ∈ [wP], p.sku = row.sku →
          (List.filter (fun sp =>
            decide (sp.product_id = p.product_id) && sp.is_primary_supplier) [wLink1]).length = 1) →
        (∀ sp ∈ [wLink1],
          (List.filter (fun s => s.supplier_id = sp.supplier_id) [wSup1]).length = 1) →
        out.countP (fun l => decide (l.sku = row.sku)) = 1) ∧
      ((∀ row ∈ calculate_net_demand [wP] [wR] wOrdersA wStockA, ¬ 0 < row.net_demand) →
        out = []) :=
  C6_output_shape [wP] [wR] wOrdersA wStockA [wLink1] [wSup1]
    (by simp) (by simp) (by decide)

/-- C10: the supplier-order join never consults `suppliers.is_active` — a
positive-demand SKU whose primary link resolves to an INACTIVE supplier
still yields an exported line carrying that supplier's code. -/
theorem C10_inactive_supplier_still_ordered
    (products : List Product) (rules : List ReplenishmentRule)
    (orders : List OrderLine) (stock : List StockRecord)
    (links : List SupplierProduct) (suppliers : List Supplier)
    (row : NetDemandRow) (p : Product) (sp : SupplierProduct) (s : Supplier)
    (hcs : ∀ r ∈ rules, r.case_size ≠ 0)
    (hrow : row ∈ calculate_net_demand products rules orders stock)
    (hpos : 0 < row.net_demand)
    (hp : p ∈ products) (hps : p.sku = row.sku)
    (hsp : sp ∈ links) (hpid : sp.product_id = p.product_id)
    (hprim : sp.is_primary_supplier = true)
    (hs : s ∈ suppliers) (hsid : s.supplier_id = sp.supplier_id)
    (hinact : s.is_active = false) :
    ∃ out, generate_supplier_orders (calculate_net_demand products rules orders stock)
        products links suppliers = some out ∧
      mkOrderLine s row ∈ out ∧
      (mkOrderLine s row).supplier_code = s.supplier_code := by
  have hcs' : ∀ row' ∈ calculate_net_demand products rules orders stock,
      row'.case_size ≠ 0 := by
    intro row' hrow'
    obtain ⟨q, _, r, hr, _, _, rfl⟩ := mem_calculate_net_demand.mp hrow'
    simpa using hcs r hr
  refine ⟨_, generate_supplier_orders_eq_some hcs', ?_, rfl⟩
  rw [(List.perm_insertionSort lineLE _).mem_iff]
  exact mkOrderLine_mem_supplierOrderRows hrow hpos hp hps hsp hpid hprim hs hsid

/-- C10 witness: `wSupInactive` (`is_active = false`) is the primary
supplier of `SKU00001`, demand 70 > 0; its line is still exported. -/
theorem C10_witness :
    ∃ out, generate_supplier_orders (calculate_net_demand [wP] [wR] wOrdersA wStockA)
        [wP] [wLinkInactive] [wSupInactive] = some out ∧
      mkOrderLine wSupInactive (netDemandRow wOrdersA wStockA wP wR) ∈ out ∧
      (mkOrderLine wSupInactive (netDemandRow wOrdersA wStockA wP wR)).supplier_code
        = wSupInactive.supplier_code :=
  C10_inactive_supplier_still_ordered [wP] [wR] wOrdersA wStockA
    [wLinkInactive] [wSupInactive] (netDemandRow wOrdersA wStockA wP wR)
    wP wLinkInactive wSupInactive
    (by decide) (by decide) (by decide) (by decide) (by decide) (by decide)
    (by decide) (by decide) (by decide) (by decide) (by decide)

/-- C3 counterexample: `SKU00001` has TWO primary-supplier links and
positive net demand (safety stock 20, no orders, no stock).  The derivation
does not detect this: it succeeds (no error of any kind) and emits TWO
order lines for the SKU, one per link, contradicting the claimed
at-most-one line and the claimed surfaced lookup error. -/
theorem C3_counterexample :
    (generate_supplier_orders (calculate_net_demand [wP] [wR] [] [])
        [wP] [wLink1, wLink2] [wSup1, wSup2]).isSome = true ∧
    ((generate_supplier_orders (calculate_net_demand [wP] [wR] [] [])
        [wP] [wLink1, wLink2] [wSup1, wSup2]).getD []).countP
      (fun l => decide (l.sku = "SKU00001")) = 2 := by decide

/-- C3 amended: the derivation is a plain SQL join with no detection path.
For every SKU the successful export carries exactly
(number of positive net-demand rows of the SKU) × (join fan-out of the SKU)
lines: zero primary links mean the SKU is silently dropped (no error, no
report), k primary links each resolving to one supplier mean k duplicate
lines, and the run never fails on account of the supplier mapping. -/
theorem C3_amended_join_fanout (nd : List NetDemandRow)
    (products : List Product) (links : List SupplierProduct)
    (suppliers : List Supplier)
    (hcs : ∀ row ∈ nd, row.case_size ≠ 0) (x : String) :
    ∃ out, generate_supplier_orders nd products links suppliers = some out ∧
      out.countP (fun l => decide (l.sku = x))
        = nd.countP (fun row => decide (0 < row.net_demand) && decide (row.sku = x))
            * linkFanout products links suppliers x := by
  refine ⟨_, generate_supplier_orders_eq_some hcs, ?_⟩
  rw [List.Perm.countP_eq _ (List.perm_insertionSort lineLE _),
    countP_supplierOrderRows]

/-- C3 amended witness: on the two-primary-link data the fan-out is 2 and
exactly 2 duplicate lines are exported. -/
theorem C3_amended_witness :
    ∃ out, generate_supplier_orders (calculate_net_demand [wP] [wR] [] [])
        [wP] [wLink1, wLink2] [wSup1, wSup2] = some out ∧
      out.countP (fun l => decide (l.sku = "SKU00001"))
        = (calculate_net_demand [wP] [wR] [] []).countP
            (fun row => decide (0 < row.net_demand) && decide (row.sku = "SKU00001"))
            * linkFanout [wP] [wLink1, wLink2] [wSup1, wSup2] "SKU00001" :=
  C3_amended_join_fanout (calculate_net_demand [wP] [wR] [] [])
    [wP] [wLink1, wLink2] [wSup1, wSup2] (by decide) "SKU00001"

/-- C5 counterexample: a rule with `case_size = 0` on a positive-demand SKU
with a primary supplier is NOT rejected before rounding: the rounding
expression is evaluated on it and the whole derivation query fails
(`none`, i.e. the task raises and the run crashes) — there is no
`InvalidCaseSizeError` data-quality path. -/
theorem C5_counterexample :
    generate_supplier_orders (calculate_net_demand [wP] [wRZeroCase] [] [])
      [wP] [wLink1] [wSup1] = none := by decide

/-- C5 amended: no `case_size` validation exists anywhere before the
rounding step; the derivation fails (crashing the task) exactly when some
joined row that survives the `net_demand > 0` filter and the supplier joins
carries `case_size = 0`, and otherwise the zero-case rule passes through
unguarded. -/
theorem C5_amended_no_guard (nd : List NetDemandRow)
    (products : List Product) (links : List SupplierProduct)
    (suppliers : List Supplier) :
    generate_supplier_orders nd products links suppliers = none ↔
      ∃ l ∈ supplierOrderRows nd products links suppliers, l.case_size = 0 := by
  unfold generate_supplier_orders
  by_cases h : ∃ l ∈ supplierOrderRows nd products links suppliers, l.case_size = 0
  · have hany : (supplierOrderRows nd products links suppliers).any
        (fun l => decide (l.case_size = 0)) = true := by
      rw [List.any_eq_true]
      obtain ⟨l, hl, hcs⟩ := h
      exact ⟨l, hl, by simpa using hcs⟩
    simp [hany, h]
  · have hany : (supplierOrderRows nd products links suppliers).any
        (fun l => decide (l.case_size = 0)) = false := by
      rw [List.any_eq_false]
      intro l hl
      simpa using fun hcs => h ⟨l, hl, hcs⟩
    simp [hany, h]

/-- C7 counterexample: an active product whose only link is NON-primary.
It has zero primary-supplier links, yet the code's unmapped-SKU check —
which tests for the absence of ANY link row — counts it as mapped and
emits no warning, refuting the claimed iff. -/
theorem C7_counterexample :
    ¬ ((warningMsg ∈ validate_data_quality [wP] [wLinkNonPrimary] []) ↔
        0 < primaryUnmappedCount [wP] [wLinkNonPrimary]) := by decide

/-- C7 amended: the WARNING finding is emitted iff some active product has
zero `supplier_products` links of ANY kind (primary or not), and the check
is purely advisory: the pipeline's net-demand table and supplier-order
export are computed from the inputs alone, independent of the findings. -/
theorem C7_amended_warning_iff (products : List Product)
    (links : List SupplierProduct) (orders : List OrderLine)
    (i : PipelineInput) :
    (warningMsg ∈ validate_data_quality products links orders ↔
      unmappedCount products links ≠ 0) ∧
    (runPipeline i).supplierOrders
      = generate_supplier_orders
          (calculate_net_demand i.products i.rules i.orders i.stock)
          i.products i.links i.suppliers ∧
    (runPipeline i).netDemand
      = calculate_net_demand i.products i.rules i.orders i.stock := by
  refine ⟨?_, rfl, rfl⟩
  have hne : warningMsg ≠ infoMsg := by decide
  by_cases h1 : unmappedCount products links ≠ 0 <;>
    by_cases h2 : 2 ≤ (spikeSkus orders).length <;>
      simp [validate_data_quality, h1, h2, hne]

/-- C8: the demand-spike check is coded as
`len(result.stdout.strip().split('\n')) > 1`, which cannot distinguish ONE
result row from NONE — a single SKU exceeding the 1000-unit threshold
(here 1500 units) produces no INFO finding at all, contradicting the
spec's per-SKU emission (Scenario D). -/
theorem C8_single_spike_unreported :
    1000 < aggOrders wSpikeOrders "SKU00001" ∧
    (spikeSkus wSpikeOrders).length = 1 ∧
    validate_data_quality [wP] [wLink1] wSpikeOrders = [] := by decide
